import Mathlib

/-!
Verification model of the flutter_react_css scroll/page controller subsystem.

The embedding models JavaScript numbers with their special values (NaN and
the infinities) as `JSNum`, because the page-index computation divides by a
viewport extent that can be zero.  Finite values are rationals: the DOM
values involved (scroll offsets, element sizes) are exactly representable
and the spec treats floating-point fidelity as a non-goal.
-/

/-- A JavaScript number: NaN, +Infinity, -Infinity, or a finite value. -/
inductive JSNum where
  | nan : JSNum
  | inf : JSNum
  | ninf : JSNum
  | fin : ℚ → JSNum
deriving DecidableEq

namespace JSNum

/-- JS division of two finite numbers: division by (positive) zero gives
Infinity with the sign of the dividend, and 0/0 gives NaN. -/
def divF (a b : ℚ) : JSNum :=
  if b = 0 then
    if 0 < a then .inf else if a < 0 then .ninf else .nan
  else .fin (a / b)

/-- JS Math.round: for finite x it is the floor of x + 1/2 (halves round
toward positive infinity); NaN and the infinities pass through. -/
def round : JSNum → JSNum
  | .fin q => .fin ((⌊q + 1/2⌋ : ℤ) : ℚ)
  | x => x

/-- JS Math.min: NaN if either argument is NaN. -/
def min : JSNum → JSNum → JSNum
  | .nan, _ => .nan
  | _, .nan => .nan
  | .ninf, _ => .ninf
  | _, .ninf => .ninf
  | .inf, b => b
  | a, .inf => a
  | .fin a, .fin b => .fin (Min.min a b)

/-- JS Math.max: NaN if either argument is NaN. -/
def max : JSNum → JSNum → JSNum
  | .nan, _ => .nan
  | _, .nan => .nan
  | .inf, _ => .inf
  | _, .inf => .inf
  | .ninf, b => b
  | a, .ninf => a
  | .fin a, .fin b => .fin (Max.max a b)

/-- JS strict inequality x !== y.  Note NaN !== y is true for every y,
including NaN itself. -/
def strictNe : JSNum → JSNum → Bool
  | .nan, _ => true
  | _, .nan => true
  | .inf, .inf => false
  | .ninf, .ninf => false
  | .fin a, .fin b => decide (a ≠ b)
  | _, _ => true

/-- JS comparison x >= y; false whenever either side is NaN. -/
def ge : JSNum → JSNum → Bool
  | .nan, _ => false
  | _, .nan => false
  | .inf, _ => true
  | _, .inf => false
  | _, .ninf => true
  | .ninf, _ => false
  | .fin a, .fin b => decide (b ≤ a)

/-- JS comparison x < y; false whenever either side is NaN. -/
def lt : JSNum → JSNum → Bool
  | .nan, _ => false
  | _, .nan => false
  | _, .ninf => false
  | .ninf, _ => true
  | .inf, _ => false
  | _, .inf => true
  | .fin a, .fin b => decide (a < b)

/-- JS addition restricted to the cases that occur in the model. -/
def add : JSNum → JSNum → JSNum
  | .nan, _ => .nan
  | _, .nan => .nan
  | .inf, .ninf => .nan
  | .ninf, .inf => .nan
  | .inf, _ => .inf
  | _, .inf => .inf
  | .ninf, _ => .ninf
  | _, .ninf => .ninf
  | .fin a, .fin b => .fin (a + b)

/-- JS subtraction x - y, defined as x + (-y). -/
def sub (x y : JSNum) : JSNum :=
  add x (match y with
    | .nan => .nan
    | .inf => .ninf
    | .ninf => .inf
    | .fin b => .fin (-b))

end JSNum

/-- State of a page-view component: the `currentPage` React state cell and,
for observation, the list of arguments passed to the `onPageChanged`
callback so far (in order).  The source components hold no scroll
controller and their handlers never issue scroll commands. -/
structure PVState where
  currentPage : JSNum
  events : List JSNum
deriving DecidableEq

/-- The initial component state: `useState(0)` and no notifications yet. -/
def PVState.init : PVState := ⟨.fin 0, []⟩

/-- The physics prop: "bouncy" | "never" | "clamped". -/
inductive Physics where
  | bouncy : Physics
  | never : Physics
  | clamped : Physics
deriving DecidableEq

namespace PageView

/-- PageView.handlePageChange (src/src/components/PageView.tsx:135-142):
if newPage !== currentPage, set the state and call onPageChanged(newPage).
There is no bounds check in this component. -/
def handlePageChange (s : PVState) (newPage : JSNum) : PVState :=
  if JSNum.strictNe newPage s.currentPage then
    { currentPage := newPage, events := s.events ++ [newPage] }
  else s

/-- PageView setPage (PageView.tsx:121): directly sets the state cell.
No clamping, no notification, no scroll command. -/
def setPage (s : PVState) (pageIndex : JSNum) : PVState :=
  { s with currentPage := pageIndex }

/-- PageView getCurrentPage (PageView.tsx:122). -/
def getCurrentPage (s : PVState) : JSNum := s.currentPage

/-- PageView nextPage (PageView.tsx:123): handlePageChange(currentPage + 1). -/
def nextPage (s : PVState) : PVState :=
  handlePageChange s (JSNum.add s.currentPage (.fin 1))

/-- PageView previousPage (PageView.tsx:124): handlePageChange(currentPage - 1). -/
def previousPage (s : PVState) : PVState :=
  handlePageChange s (JSNum.sub s.currentPage (.fin 1))

/-- The candidate index computed in PageView.handleScroll
(PageView.tsx:151-156): Math.round(scrollAmount / extent), where extent is
the viewport size along the scrolling axis (already defaulted to 0 by the
`|| 0` when the container ref is null). -/
def scrollCandidate (scrollAmount extent : ℚ) : JSNum :=
  JSNum.round (JSNum.divF scrollAmount extent)

/-- The page index after the physics branches of PageView.handleScroll
(PageView.tsx:158-168).  All three branches apply the same clamp
Math.max(0, Math.min(newPage, totalPages - 1)). -/
def scrollNewPage (physics : Physics) (totalPages : ℕ)
    (scrollAmount extent : ℚ) : JSNum :=
  let newPage := scrollCandidate scrollAmount extent
  match physics with
  | .bouncy => JSNum.max (.fin 0) (JSNum.min newPage (.fin ((totalPages : ℚ) - 1)))
  | .never => JSNum.max (.fin 0) (JSNum.min newPage (.fin ((totalPages : ℚ) - 1)))
  | .clamped => JSNum.max (.fin 0) (JSNum.min newPage (.fin ((totalPages : ℚ) - 1)))

/-- PageView.handleScroll (PageView.tsx:144-171): compute the clamped
candidate index and feed it to handlePageChange. -/
def handleScroll (physics : Physics) (totalPages : ℕ)
    (scrollAmount extent : ℚ) (s : PVState) : PVState :=
  handlePageChange s (scrollNewPage physics totalPages scrollAmount extent)

end PageView

namespace PageViewCustom

/-- PageViewCustom handlePageChange (src/unnamed/part_017:410-417):
update and notify only when newPage !== currentPage && newPage >= 0 &&
newPage < count. -/
def handlePageChange (count : ℕ) (s : PVState) (newPage : JSNum) : PVState :=
  if JSNum.strictNe newPage s.currentPage
      && JSNum.ge newPage (.fin 0)
      && JSNum.lt newPage (.fin (count : ℚ)) then
    { currentPage := newPage, events := s.events ++ [newPage] }
  else s

/-- PageViewCustom setPage (part_017:391,401): directly sets the state cell.
No clamping, no notification, no scroll command. -/
def setPage (s : PVState) (pageIndex : JSNum) : PVState :=
  { s with currentPage := pageIndex }

/-- PageViewCustom getCurrentPage (part_017:392,402). -/
def getCurrentPage (s : PVState) : JSNum := s.currentPage

/-- PageViewCustom nextPage (part_017:393,403). -/
def nextPage (count : ℕ) (s : PVState) : PVState :=
  handlePageChange count s (JSNum.add s.currentPage (.fin 1))

/-- PageViewCustom previousPage (part_017:394,404). -/
def previousPage (count : ℕ) (s : PVState) : PVState :=
  handlePageChange count s (JSNum.sub s.currentPage (.fin 1))

/-- The candidate index computed in PageViewCustom.handleScroll
(part_017:426-431). -/
def scrollCandidate (scrollAmount extent : ℚ) : JSNum :=
  JSNum.round (JSNum.divF scrollAmount extent)

/-- The page index after the physics branches of PageViewCustom.handleScroll
(part_017:433-438); both branches of the if/else chain apply the same clamp. -/
def scrollNewPage (physics : Physics) (count : ℕ)
    (scrollAmount extent : ℚ) : JSNum :=
  let newPage := scrollCandidate scrollAmount extent
  match physics with
  | .bouncy => JSNum.max (.fin 0) (JSNum.min newPage (.fin ((count : ℚ) - 1)))
  | .never => JSNum.max (.fin 0) (JSNum.min newPage (.fin ((count : ℚ) - 1)))
  | .clamped => JSNum.max (.fin 0) (JSNum.min newPage (.fin ((count : ℚ) - 1)))

/-- PageViewCustom.handleScroll (part_017:420-441). -/
def handleScroll (physics : Physics) (count : ℕ)
    (scrollAmount extent : ℚ) (s : PVState) : PVState :=
  handlePageChange count s (scrollNewPage physics count scrollAmount extent)

end PageViewCustom

/-- The index formula stated by the spec: round(primaryAxisOffset /
pageExtent) clamped into [0, count-1]. -/
def specCandidateIndex (count : ℕ) (scrollAmount extent : ℚ) : ℤ :=
  Max.max 0 (Min.min ⌊scrollAmount / extent + 1/2⌋ ((count : ℤ) - 1))

/-- An operation a caller or the rendering layer can perform on a
PageViewCustom instance: a controller command or a scroll event with the
surface offset and viewport extent it reports. -/
inductive PVOp where
  | next : PVOp
  | prev : PVOp
  | scroll : ℚ → ℚ → PVOp

namespace PageViewCustom

/-- Dispatch one operation to the corresponding PageViewCustom handler. -/
def applyOp (physics : Physics) (count : ℕ) : PVOp → PVState → PVState
  | .next, s => nextPage count s
  | .prev, s => previousPage count s
  | .scroll a e, s => handleScroll physics count a e s

/-- Run a sequence of operations from a starting state. -/
def runOps (physics : Physics) (count : ℕ) : List PVOp → PVState → PVState
  | [], s => s
  | op :: ops, s => runOps physics count ops (applyOp physics count op s)

end PageViewCustom

/-- The spec range for an onPageChanged argument: an integer in [0, count-1]. -/
def eventInRange (count : ℕ) (e : JSNum) : Prop :=
  ∃ k : ℤ, e = .fin (k : ℚ) ∧ 0 ≤ k ∧ k ≤ (count : ℤ) - 1

/-- Invariant carried through sequences of PageViewCustom operations: the
current page is a finite integer and every emitted argument is in range. -/
def PVState.ok (count : ℕ) (s : PVState) : Prop :=
  (∃ k : ℤ, s.currentPage = .fin (k : ℚ)) ∧ ∀ e ∈ s.events, eventInRange count e

/-- A scroll offset { top, left }. -/
structure ScrollOffset where
  top : ℚ
  left : ℚ
deriving DecidableEq

/-- Model of the DOM scrollable element behind a controller: the live
scroll position plus the content and viewport sizes. -/
structure Surface where
  scrollTop : ℚ
  scrollLeft : ℚ
  scrollHeight : ℚ
  scrollWidth : ℚ
  clientHeight : ℚ
  clientWidth : ℚ
deriving DecidableEq

namespace Surface

/-- The maximum scrollable offset on the vertical axis.  The DOM clamps
scroll positions into [0, scrollHeight - clientHeight], never below 0. -/
def maxTop (s : Surface) : ℚ := Max.max 0 (s.scrollHeight - s.clientHeight)

/-- The maximum scrollable offset on the horizontal axis. -/
def maxLeft (s : Surface) : ℚ := Max.max 0 (s.scrollWidth - s.clientWidth)

/-- Models CSSOM element.scrollTo (and assignment of both offsets): the
requested position is clamped into the scrollable range on each axis.
Content and viewport sizes are unchanged. -/
def domScrollTo (s : Surface) (top left : ℚ) : Surface :=
  { s with scrollTop := Max.max 0 (Min.min top s.maxTop),
           scrollLeft := Max.max 0 (Min.min left s.maxLeft) }

/-- Models CSSOM element.scrollBy: relative delta, then the same clamp. -/
def domScrollBy (s : Surface) (dtop dleft : ℚ) : Surface :=
  s.domScrollTo (s.scrollTop + dtop) (s.scrollLeft + dleft)

/-- Models assignment to element.scrollTop alone: clamped on the vertical
axis, the horizontal offset untouched. -/
def setScrollTop (s : Surface) (v : ℚ) : Surface :=
  { s with scrollTop := Max.max 0 (Min.min v s.maxTop) }

end Surface

/-!
The scroll controllers.  Each component holds a ref to its container div;
`Option Surface` models `ref.current` (`none` before mount / after
unmount).  Every mutator is translated from the component source.
-/

namespace GridView

/-- GridView scrollToTop (src/src/components/GridView.tsx:112-114):
gridContainerRef.current?.scrollTo({ top: 0, left: 0 }). -/
def scrollToTop (r : Option Surface) : Option Surface :=
  r.map (fun s => s.domScrollTo 0 0)

/-- GridView scrollToBottom (GridView.tsx:116-123): maxScrollTop is read
as the raw scrollHeight, then scrollTo({ top: maxScrollTop, left: 0 }). -/
def scrollToBottom (r : Option Surface) : Option Surface :=
  r.map (fun s => s.domScrollTo s.scrollHeight 0)

/-- The offset GridView.scrollToBottom passes to scrollTo: the raw content
height, and 0 on the horizontal axis. -/
def scrollToBottomTarget (s : Surface) : ScrollOffset :=
  ⟨s.scrollHeight, 0⟩

/-- GridView scrollBy (GridView.tsx:125-127):
gridContainerRef.current?.scrollBy({ left: x, top: y }). -/
def scrollBy (x y : ℚ) (r : Option Surface) : Option Surface :=
  r.map (fun s => s.domScrollBy y x)

/-- GridView scrollTo (GridView.tsx:129-131). -/
def scrollTo (x y : ℚ) (r : Option Surface) : Option Surface :=
  r.map (fun s => s.domScrollTo y x)

end GridView

namespace ListView

/-- ListView scrollToTop (src/unnamed/part_017:133-135, identically
src/unnamed/part_000): if mounted, listRef.current.scrollTop = 0.  Only
the vertical offset is assigned. -/
def scrollToTop (r : Option Surface) : Option Surface :=
  r.map (fun s => s.setScrollTop 0)

/-- ListView scrollToBottom (part_017:136-139): if mounted,
listRef.current.scrollTop = listRef.current.scrollHeight (the raw content
height; the DOM clamps the assignment). -/
def scrollToBottom (r : Option Surface) : Option Surface :=
  r.map (fun s => s.setScrollTop s.scrollHeight)

/-- ListView scrollBy (part_017:140-144). -/
def scrollBy (x y : ℚ) (r : Option Surface) : Option Surface :=
  r.map (fun s => s.domScrollBy y x)

/-- ListView scrollTo (part_017:145-149). -/
def scrollTo (x y : ℚ) (r : Option Surface) : Option Surface :=
  r.map (fun s => s.domScrollTo y x)

end ListView

namespace NestedScrollView

/-- NestedScrollView scrollToTop (src/src/components/NestedScrollView.tsx:
145-153): scrollTo({ top: 0, left: 0 }) when mounted. -/
def scrollToTop (r : Option Surface) : Option Surface :=
  r.map (fun s => s.domScrollTo 0 0)

/-- NestedScrollView scrollToBottom (NestedScrollView.tsx:154-163):
scrollTo({ top: scrollHeight, left: 0 }) when mounted — again the raw
content height. -/
def scrollToBottom (r : Option Surface) : Option Surface :=
  r.map (fun s => s.domScrollTo s.scrollHeight 0)

/-- The offset NestedScrollView.scrollToBottom passes to scrollTo. -/
def scrollToBottomTarget (s : Surface) : ScrollOffset :=
  ⟨s.scrollHeight, 0⟩

/-- NestedScrollView scrollBy (NestedScrollView.tsx:164-172). -/
def scrollBy (x y : ℚ) (r : Option Surface) : Option Surface :=
  r.map (fun s => s.domScrollBy y x)

/-- NestedScrollView scrollTo (NestedScrollView.tsx:173-181). -/
def scrollTo (x y : ℚ) (r : Option Surface) : Option Surface :=
  r.map (fun s => s.domScrollTo y x)

end NestedScrollView

/-- The offset the spec says scrollToBottom must target: the maximum
scrollable extent { maxTop, maxLeft }, i.e. content size minus viewport
size clamped to be nonnegative (spec sections 3 and 4.1).  Stated from the
spec wording for comparison with the implementations. -/
def specMaxExtentOffset (s : Surface) : ScrollOffset :=
  ⟨s.maxTop, s.maxLeft⟩

/-!  Helper lemmas. -/

theorem JSNum.divF_of_ne (a : ℚ) {e : ℚ} (he : e ≠ 0) :
    JSNum.divF a e = .fin (a / e) := by
  simp [JSNum.divF, he]

theorem JSNum.add_fin (a b : ℚ) :
    JSNum.add (.fin a) (.fin b) = .fin (a + b) := rfl

theorem JSNum.sub_fin (a b : ℚ) :
    JSNum.sub (.fin a) (.fin b) = .fin (a - b) := by
  simp [JSNum.sub, JSNum.add, sub_eq_add_neg]

/-- All three physics branches of PageView.handleScroll compute the same
clamp of the rounded candidate. -/
theorem PageView.scrollNewPage_def (p : Physics) (n : ℕ) (a e : ℚ) :
    PageView.scrollNewPage p n a e =
      JSNum.max (.fin 0)
        (JSNum.min (PageView.scrollCandidate a e) (.fin ((n : ℚ) - 1))) := by
  cases p <;> rfl

/-- All three physics branches of PageViewCustom.handleScroll compute the
same clamp of the rounded candidate. -/
theorem PageViewCustom.scrollNewPage_custom_def (p : Physics) (n : ℕ) (a e : ℚ) :
    PageViewCustom.scrollNewPage p n a e =
      JSNum.max (.fin 0)
        (JSNum.min (PageViewCustom.scrollCandidate a e) (.fin ((n : ℚ) - 1))) := by
  cases p <;> rfl

/-- With a nonzero extent the PageView candidate is the finite clamped
rounded index of the spec formula. -/
theorem PageView.scrollNewPage_eq (p : Physics) (n : ℕ) (a : ℚ) {e : ℚ}
    (he : e ≠ 0) :
    PageView.scrollNewPage p n a e = .fin ((specCandidateIndex n a e : ℤ) : ℚ) := by
  rw [PageView.scrollNewPage_def, PageView.scrollCandidate,
    JSNum.divF_of_ne a he]
  simp only [JSNum.round, JSNum.min, JSNum.max, specCandidateIndex]
  push_cast
  rfl

/-- With a nonzero extent the PageViewCustom candidate is the finite
clamped rounded index of the spec formula. -/
theorem PageViewCustom.scrollNewPage_custom_eq (p : Physics) (n : ℕ) (a : ℚ) {e : ℚ}
    (he : e ≠ 0) :
    PageViewCustom.scrollNewPage p n a e
      = .fin ((specCandidateIndex n a e : ℤ) : ℚ) := by
  rw [PageViewCustom.scrollNewPage_custom_def, PageViewCustom.scrollCandidate,
    JSNum.divF_of_ne a he]
  simp only [JSNum.round, JSNum.min, JSNum.max, specCandidateIndex]
  push_cast
  rfl

theorem specCandidateIndex_nonneg (n : ℕ) (a e : ℚ) :
    0 ≤ specCandidateIndex n a e :=
  le_max_left 0 _

theorem specCandidateIndex_le (n : ℕ) (a e : ℚ) (hn : 1 ≤ n) :
    specCandidateIndex n a e ≤ (n : ℤ) - 1 := by
  have h1 : (1 : ℤ) ≤ (n : ℤ) := by exact_mod_cast hn
  exact max_le (by omega) (min_le_right _ _)

/-- Behaviour of PageView.handlePageChange on finite inputs: update and
notify exactly when the value differs from the current one. -/
theorem PageView.handlePageChange_fin (c x : ℚ) (evs : List JSNum) :
    PageView.handlePageChange ⟨.fin c, evs⟩ (.fin x) =
      if x = c then ⟨.fin c, evs⟩ else ⟨.fin x, evs ++ [.fin x]⟩ := by
  by_cases h : x = c <;> simp [PageView.handlePageChange, JSNum.strictNe, h]

/-- Behaviour of PageViewCustom.handlePageChange on an in-range finite
input: update and notify exactly when the value differs. -/
theorem PageViewCustom.handlePageChange_custom_fin (n : ℕ) (c x : ℚ) (evs : List JSNum)
    (h0 : 0 ≤ x) (h1 : x < (n : ℚ)) :
    PageViewCustom.handlePageChange n ⟨.fin c, evs⟩ (.fin x) =
      if x = c then ⟨.fin c, evs⟩ else ⟨.fin x, evs ++ [.fin x]⟩ := by
  by_cases h : x = c <;>
    simp [PageViewCustom.handlePageChange, JSNum.strictNe, JSNum.ge, JSNum.lt,
      h, h0, h1]

/-- With count = 0 PageViewCustom.handlePageChange rejects every input:
the in-range test 0 <= newPage < 0 is unsatisfiable and NaN fails every
comparison. -/
theorem PageViewCustom.handlePageChange_count_zero (s : PVState) (x : JSNum) :
    PageViewCustom.handlePageChange 0 s x = s := by
  rcases x with _ | _ | _ | a
  · simp [PageViewCustom.handlePageChange, JSNum.ge]
  · simp [PageViewCustom.handlePageChange, JSNum.lt]
  · simp [PageViewCustom.handlePageChange, JSNum.ge]
  · rcases le_or_lt 0 a with h | h
    · simp [PageViewCustom.handlePageChange, JSNum.lt, h.not_lt]
    · simp [PageViewCustom.handlePageChange, JSNum.ge, h.not_le]

/-- PageViewCustom.handlePageChange ignores NaN: NaN fails the >= 0 test. -/
theorem PageViewCustom.handlePageChange_nan (n : ℕ) (s : PVState) :
    PageViewCustom.handlePageChange n s .nan = s := by
  simp [PageViewCustom.handlePageChange, JSNum.ge]

/-- The clamped candidate of PageViewCustom.handleScroll is NaN or a
finite integer (an infinite quotient is clamped to a bound). -/
theorem PageViewCustom.scrollNewPage_shape (p : Physics) (n : ℕ) (a e : ℚ) :
    PageViewCustom.scrollNewPage p n a e = .nan ∨
      ∃ m : ℤ, PageViewCustom.scrollNewPage p n a e = .fin (m : ℚ) := by
  by_cases he : e = 0
  · subst he
    rw [PageViewCustom.scrollNewPage_custom_def, PageViewCustom.scrollCandidate]
    unfold JSNum.divF
    rcases lt_trichotomy a 0 with h | h | h
    · right
      refine ⟨0, ?_⟩
      simp [h, h.not_lt, JSNum.round, JSNum.min, JSNum.max]
    · left
      simp [h, JSNum.round, JSNum.min, JSNum.max]
    · right
      refine ⟨Max.max 0 ((n : ℤ) - 1), ?_⟩
      simp only [if_pos rfl, if_pos h, JSNum.round, JSNum.min, JSNum.max]
      push_cast
      rfl
  · exact Or.inr ⟨specCandidateIndex n a e, PageViewCustom.scrollNewPage_custom_eq p n a he⟩

/-- Every argument appended by PageViewCustom.handlePageChange passed the
in-range guard, provided the input was NaN or a finite integer. -/
theorem PageViewCustom.handlePageChange_mem (n : ℕ) (s : PVState) (x e' : JSNum)
    (hx : x = .nan ∨ ∃ m : ℤ, x = .fin (m : ℚ))
    (he' : e' ∈ (PageViewCustom.handlePageChange n s x).events) :
    e' ∈ s.events ∨ eventInRange n e' := by
  rcases hx with hx | ⟨m, hx⟩
  · subst hx
    rw [PageViewCustom.handlePageChange_nan] at he'
    exact Or.inl he'
  · subst hx
    unfold PageViewCustom.handlePageChange at he'
    by_cases hcond : (JSNum.strictNe (.fin (m : ℚ)) s.currentPage
        && JSNum.ge (.fin (m : ℚ)) (.fin 0)
        && JSNum.lt (.fin (m : ℚ)) (.fin (n : ℚ))) = true
    · rw [if_pos hcond] at he'
      simp only [Bool.and_eq_true, JSNum.ge, JSNum.lt, decide_eq_true_eq] at hcond
      obtain ⟨⟨-, h0⟩, h1⟩ := hcond
      rcases List.mem_append.mp he' with hmem | hmem
      · exact Or.inl hmem
      · refine Or.inr ⟨m, List.mem_singleton.mp hmem, ?_, ?_⟩
        · exact_mod_cast h0
        · have : m < (n : ℤ) := by exact_mod_cast h1
          omega
    · rw [if_neg hcond] at he'
      exact Or.inl he'

/-- PageViewCustom.handlePageChange preserves the state invariant when fed
NaN or a finite integer. -/
theorem PageViewCustom.handlePageChange_ok (n : ℕ) (s : PVState) (x : JSNum)
    (hx : x = .nan ∨ ∃ m : ℤ, x = .fin (m : ℚ))
    (h : PVState.ok n s) : PVState.ok n (PageViewCustom.handlePageChange n s x) := by
  constructor
  · rcases hx with hx | ⟨m, hx⟩
    · subst hx
      rw [PageViewCustom.handlePageChange_nan]
      exact h.1
    · subst hx
      unfold PageViewCustom.handlePageChange
      split
      · exact ⟨m, rfl⟩
      · exact h.1
  · intro e he
    rcases PageViewCustom.handlePageChange_mem n s x e hx he with hmem | hrange
    · exact h.2 e hmem
    · exact hrange

/-- One PageViewCustom operation preserves the state invariant. -/
theorem PageViewCustom.applyOp_ok (p : Physics) (n : ℕ) (op : PVOp) (s : PVState)
    (h : PVState.ok n s) : PVState.ok n (PageViewCustom.applyOp p n op s) := by
  obtain ⟨k, hk⟩ := h.1
  cases op with
  | next =>
      have hx : JSNum.add s.currentPage (.fin 1) = .fin ((k + 1 : ℤ) : ℚ) := by
        rw [hk, JSNum.add_fin]
        push_cast
        ring_nf
      exact PageViewCustom.handlePageChange_ok n s _ (Or.inr ⟨k + 1, hx⟩) h
  | prev =>
      have hx : JSNum.sub s.currentPage (.fin 1) = .fin ((k - 1 : ℤ) : ℚ) := by
        rw [hk, JSNum.sub_fin]
        push_cast
        ring_nf
      exact PageViewCustom.handlePageChange_ok n s _ (Or.inr ⟨k - 1, hx⟩) h
  | scroll a e =>
      exact PageViewCustom.handlePageChange_ok n s _
        (PageViewCustom.scrollNewPage_shape p n a e) h

/-- A whole sequence of PageViewCustom operations preserves the invariant. -/
theorem PageViewCustom.runOps_ok (p : Physics) (n : ℕ) (ops : List PVOp)
    (s : PVState) (h : PVState.ok n s) :
    PVState.ok n (PageViewCustom.runOps p n ops s) := by
  induction ops generalizing s with
  | nil => exact h
  | cons op ops ih =>
      exact ih _ (PageViewCustom.applyOp_ok p n op s h)

/-- The initial state satisfies the invariant for every count. -/
theorem PVState.init_ok (n : ℕ) : PVState.ok n PVState.init := by
  refine ⟨⟨0, ?_⟩, ?_⟩
  · norm_num [PVState.init]
  · simp [PVState.init]

/-- Clamping a value that is already in range is the identity. -/
theorem clamp_id {v hi : ℚ} (h0 : 0 ≤ v) (h1 : v ≤ hi) :
    Max.max 0 (Min.min v hi) = v := by
  rw [min_eq_left h1, max_eq_right h0]

/-- Clamping 0 into a range with a nonnegative upper bound gives 0. -/
theorem clamp_zero {hi : ℚ} (h : 0 ≤ hi) :
    Max.max 0 (Min.min (0 : ℚ) hi) = 0 := by
  rw [min_eq_left h, max_self]

/-- Clamping a value at least the upper bound gives the upper bound. -/
theorem clamp_top {v hi : ℚ} (h0 : 0 ≤ hi) (h1 : hi ≤ v) :
    Max.max 0 (Min.min v hi) = hi := by
  rw [min_eq_right h1, max_eq_right h0]

theorem Surface.maxTop_nonneg (s : Surface) : 0 ≤ s.maxTop :=
  le_max_left 0 _

theorem Surface.maxLeft_nonneg (s : Surface) : 0 ≤ s.maxLeft :=
  le_max_left 0 _

/-- With nonnegative DOM metrics the scrollable extent never exceeds the
raw content height. -/
theorem Surface.maxTop_le_scrollHeight (s : Surface)
    (hh : 0 ≤ s.scrollHeight) (hc : 0 ≤ s.clientHeight) :
    s.maxTop ≤ s.scrollHeight :=
  max_le hh (by linarith)

/-- Characterization of PageView.handleScroll from a finite current page
with a nonzero extent: it is exactly the spec transition. -/
theorem PageView.handleScroll_char (p : Physics) (n : ℕ) (a : ℚ) {e : ℚ}
    (he : e ≠ 0) (c : ℚ) (evs : List JSNum) :
    PageView.handleScroll p n a e ⟨.fin c, evs⟩ =
      if ((specCandidateIndex n a e : ℤ) : ℚ) = c then ⟨.fin c, evs⟩
      else ⟨.fin ((specCandidateIndex n a e : ℤ) : ℚ),
            evs ++ [.fin ((specCandidateIndex n a e : ℤ) : ℚ)]⟩ := by
  rw [PageView.handleScroll, PageView.scrollNewPage_eq p n a he,
    PageView.handlePageChange_fin]

/-- Characterization of PageViewCustom.handleScroll from a finite current
page with a nonzero extent and positive count. -/
theorem PageViewCustom.handleScroll_custom_char (p : Physics) (n : ℕ) (a : ℚ) {e : ℚ}
    (he : e ≠ 0) (hn : 1 ≤ n) (c : ℚ) (evs : List JSNum) :
    PageViewCustom.handleScroll p n a e ⟨.fin c, evs⟩ =
      if ((specCandidateIndex n a e : ℤ) : ℚ) = c then ⟨.fin c, evs⟩
      else ⟨.fin ((specCandidateIndex n a e : ℤ) : ℚ),
            evs ++ [.fin ((specCandidateIndex n a e : ℤ) : ℚ)]⟩ := by
  have h0 : (0 : ℚ) ≤ ((specCandidateIndex n a e : ℤ) : ℚ) := by
    exact_mod_cast specCandidateIndex_nonneg n a e
  have h1 : ((specCandidateIndex n a e : ℤ) : ℚ) < (n : ℚ) := by
    have hle := specCandidateIndex_le n a e hn
    have : specCandidateIndex n a e < (n : ℤ) := by omega
    exact_mod_cast this
  rw [PageViewCustom.handleScroll, PageViewCustom.scrollNewPage_custom_eq p n a he,
    PageViewCustom.handlePageChange_custom_fin n c _ evs h0 h1]

/-!  The claims. -/

/-- C1: for both PageView and PageViewCustom, on every scroll event with a
positive page extent and count at least 1, starting from any finite
current index c, the new page index equals round(offset / pageExtent)
clamped into [0, count-1], and onPageChanged fires (with that index)
exactly when the clamped index differs from c. -/
theorem claim1_scroll_maps_offset_to_index (p : Physics) (n : ℕ) (a e c : ℚ)
    (evs : List JSNum) (hn : 1 ≤ n) (he : 0 < e) :
    (PageView.handleScroll p n a e ⟨.fin c, evs⟩).currentPage
        = .fin ((specCandidateIndex n a e : ℤ) : ℚ)
  ∧ (PageView.handleScroll p n a e ⟨.fin c, evs⟩).events
        = evs ++ (if ((specCandidateIndex n a e : ℤ) : ℚ) = c then []
                  else [.fin ((specCandidateIndex n a e : ℤ) : ℚ)])
  ∧ (PageViewCustom.handleScroll p n a e ⟨.fin c, evs⟩).currentPage
        = .fin ((specCandidateIndex n a e : ℤ) : ℚ)
  ∧ (PageViewCustom.handleScroll p n a e ⟨.fin c, evs⟩).events
        = evs ++ (if ((specCandidateIndex n a e : ℤ) : ℚ) = c then []
                  else [.fin ((specCandidateIndex n a e : ℤ) : ℚ)]) := by
  have he' : e ≠ 0 := ne_of_gt he
  rw [PageView.handleScroll_char p n a he' c evs,
    PageViewCustom.handleScroll_custom_char p n a he' hn c evs]
  by_cases hqc : ((specCandidateIndex n a e : ℤ) : ℚ) = c <;>
    simp [hqc]

/-- Witness for C1, at the concrete scenario of the spec: count 5, page
extent 300, current index 0, scroll offset 620: the index becomes 2,
onPageChanged(2) fires once, and getCurrentPage returns 2. -/
theorem claim1_scroll_maps_offset_to_index_witness :
    ((1 : ℕ) ≤ 5 ∧ (0 : ℚ) < 300)
  ∧ (PageView.handleScroll .bouncy 5 620 300 ⟨.fin 0, []⟩).currentPage = .fin 2
  ∧ (PageView.handleScroll .bouncy 5 620 300 ⟨.fin 0, []⟩).events = [.fin 2]
  ∧ (PageViewCustom.handleScroll .bouncy 5 620 300 ⟨.fin 0, []⟩).currentPage = .fin 2
  ∧ PageViewCustom.getCurrentPage
      (PageViewCustom.handleScroll .bouncy 5 620 300 ⟨.fin 0, []⟩) = .fin 2 := by
  have h := claim1_scroll_maps_offset_to_index .bouncy 5 620 300 0 []
    (by norm_num) (by norm_num)
  have hidx : ((specCandidateIndex 5 620 300 : ℤ) : ℚ) = 2 := by
    norm_num [specCandidateIndex]
  rw [hidx] at h
  obtain ⟨h1, h2, h3, h4⟩ := h
  norm_num at h2 h4
  exact ⟨⟨by norm_num, by norm_num⟩, h1, h2, h3, by
    rw [PageViewCustom.getCurrentPage, h3]⟩

/-- C2 is violated by the code: setPage in both paged components writes
the state cell directly, bypassing handlePageChange; at the failing input
(current index 0, in-range target 2) the index becomes 2 but no
onPageChanged fires and, since neither component wires a ScrollController
into its handlers, no scrollTo command is issued anywhere. -/
theorem claim2_setPage_failing_input_eval :
    PageView.setPage ⟨.fin 0, []⟩ (.fin 2) = ⟨.fin 2, []⟩
  ∧ PageView.getCurrentPage (PageView.setPage ⟨.fin 0, []⟩ (.fin 2)) = .fin 2
  ∧ PageViewCustom.setPage ⟨.fin 0, []⟩ (.fin 2) = ⟨.fin 2, []⟩
  ∧ PageViewCustom.getCurrentPage
      (PageViewCustom.setPage ⟨.fin 0, []⟩ (.fin 2)) = .fin 2 :=
  ⟨rfl, rfl, rfl, rfl⟩

/-- C3 is false at its own concrete scenario: with current index 1,
setPage(5) stores 5 unclamped (getCurrentPage returns 5, not 2) and emits
no notification at all. -/
theorem claim3_counterexample :
    PageView.setPage ⟨.fin 1, []⟩ (.fin 5) = ⟨.fin 5, []⟩
  ∧ PageViewCustom.setPage ⟨.fin 1, []⟩ (.fin 5) = ⟨.fin 5, []⟩
  ∧ PageView.getCurrentPage (PageView.setPage ⟨.fin 1, []⟩ (.fin 5)) ≠ .fin 2
  ∧ (PageViewCustom.setPage ⟨.fin 1, []⟩ (.fin 5)).events = [] := by
  refine ⟨rfl, rfl, ?_, rfl⟩
  norm_num [PageView.getCurrentPage, PageView.setPage]

/-- C3 amended: for every count at least 1 and every integer target
outside [0, count-1], setPage stores the target unchanged (no clamping to
a bound) and fires no notification, in both paged components. -/
theorem claim3_setPage_stores_out_of_range (n : ℕ) (i : ℤ) (c : ℚ)
    (evs : List JSNum) (hn : 1 ≤ n) (hout : i < 0 ∨ (n : ℤ) - 1 < i) :
    PageView.setPage ⟨.fin c, evs⟩ (.fin (i : ℚ)) = ⟨.fin (i : ℚ), evs⟩
  ∧ PageViewCustom.setPage ⟨.fin c, evs⟩ (.fin (i : ℚ)) = ⟨.fin (i : ℚ), evs⟩ :=
  ⟨rfl, rfl⟩

/-- Witness for the amended C3 at the concrete scenario count 3, current
index 1, target 5. -/
theorem claim3_setPage_stores_out_of_range_witness :
    ((1 : ℕ) ≤ 3 ∧ ((5 : ℤ) < 0 ∨ (3 : ℤ) - 1 < 5))
  ∧ PageView.setPage ⟨.fin 1, []⟩ (.fin ((5 : ℤ) : ℚ)) = ⟨.fin ((5 : ℤ) : ℚ), []⟩
  ∧ PageViewCustom.setPage ⟨.fin 1, []⟩ (.fin ((5 : ℤ) : ℚ))
      = ⟨.fin ((5 : ℤ) : ℚ), []⟩ :=
  ⟨⟨by norm_num, Or.inr (by norm_num)⟩,
   (claim3_setPage_stores_out_of_range 3 5 1 [] (by norm_num)
      (Or.inr (by norm_num))).1,
   (claim3_setPage_stores_out_of_range 3 5 1 [] (by norm_num)
      (Or.inr (by norm_num))).2⟩

/-- C4 is right about PageViewCustom but the PageView code violates it:
PageView.handlePageChange has no bounds check, so with 3 pages and
current index 2 nextPage sets the index to 3 and fires onPageChanged(3),
and at index 0 previousPage sets -1 and fires onPageChanged(-1); at the
same inputs PageViewCustom is a no-op as the claim states. -/
theorem claim4_pageView_no_bounds_check :
    PageView.nextPage ⟨.fin 2, []⟩ = ⟨.fin 3, [.fin 3]⟩
  ∧ PageView.previousPage ⟨.fin 0, []⟩ = ⟨.fin (-1), [.fin (-1)]⟩
  ∧ PageViewCustom.nextPage 3 ⟨.fin 2, []⟩ = ⟨.fin 2, []⟩
  ∧ PageViewCustom.previousPage 3 ⟨.fin 0, []⟩ = ⟨.fin 0, []⟩ := by
  refine ⟨?_, ?_, ?_, ?_⟩ <;>
    norm_num [PageView.nextPage, PageView.previousPage,
      PageViewCustom.nextPage, PageViewCustom.previousPage,
      PageView.handlePageChange, PageViewCustom.handlePageChange,
      JSNum.add_fin, JSNum.sub_fin, JSNum.strictNe, JSNum.ge, JSNum.lt]

/-- C5 is false as stated: setPage is not a no-op on a degenerate surface
(it stores its argument even though count = 0 — setPage reads no count at
all), and on a zero-extent surface at offset 0 PageView computes 0/0 = NaN
and fires onPageChanged(NaN). -/
theorem claim5_counterexample :
    PageViewCustom.setPage ⟨.fin 0, []⟩ (.fin 3) = ⟨.fin 3, []⟩
  ∧ PageViewCustom.getCurrentPage
      (PageViewCustom.setPage ⟨.fin 0, []⟩ (.fin 3)) ≠ .fin 0
  ∧ PageView.handleScroll .bouncy 5 0 0 ⟨.fin 3, []⟩ = ⟨.nan, [.nan]⟩ := by
  refine ⟨rfl, ?_, ?_⟩
  · norm_num [PageViewCustom.getCurrentPage, PageViewCustom.setPage]
  · norm_num [PageView.handleScroll, PageView.scrollNewPage,
      PageView.scrollCandidate, PageView.handlePageChange, JSNum.divF,
      JSNum.round, JSNum.min, JSNum.max, JSNum.strictNe]

/-- C5 amended: in PageViewCustom, with count = 0 the scroll handler,
nextPage and previousPage are no-ops from every state (never throwing,
never notifying, getCurrentPage unchanged), and on a zero-extent surface
the scroll handler never emits a NaN or infinite notification — every
argument it appends is a finite integer in [0, count-1].  setPage is
excluded (it stores its argument), and PageView is excluded (its scroll
handler can emit NaN). -/
theorem claim5_pageViewCustom_degenerate_noop :
    (∀ s : PVState, PageViewCustom.nextPage 0 s = s)
  ∧ (∀ s : PVState, PageViewCustom.previousPage 0 s = s)
  ∧ (∀ (p : Physics) (a e : ℚ) (s : PVState),
       PageViewCustom.handleScroll p 0 a e s = s)
  ∧ (∀ (p : Physics) (n : ℕ) (a : ℚ) (s : PVState) (x : JSNum),
       x ∈ (PageViewCustom.handleScroll p n a 0 s).events →
       x ∈ s.events ∨ eventInRange n x) := by
  refine ⟨?_, ?_, ?_, ?_⟩
  · intro s
    exact PageViewCustom.handlePageChange_count_zero s _
  · intro s
    exact PageViewCustom.handlePageChange_count_zero s _
  · intro p a e s
    exact PageViewCustom.handlePageChange_count_zero s _
  · intro p n a s x hx
    exact PageViewCustom.handlePageChange_mem n s _ x
      (PageViewCustom.scrollNewPage_shape p n a 0) hx

/-- Witness for the amended C5: a zero-extent scroll at positive offset
900 with count 5 emits only the in-range argument 4. -/
theorem claim5_pageViewCustom_degenerate_noop_witness :
    ((.fin 4 : JSNum) ∈ (PageViewCustom.handleScroll .bouncy 5 900 0 ⟨.fin 0, []⟩).events)
  ∧ ((.fin 4 : JSNum) ∈ ([] : List JSNum) ∨ eventInRange 5 (.fin 4)) := by
  have hmem : (.fin 4 : JSNum)
      ∈ (PageViewCustom.handleScroll .bouncy 5 900 0 ⟨.fin 0, []⟩).events := by
    norm_num [PageViewCustom.handleScroll, PageViewCustom.scrollNewPage,
      PageViewCustom.scrollCandidate, PageViewCustom.handlePageChange,
      JSNum.divF, JSNum.round, JSNum.min, JSNum.max, JSNum.strictNe,
      JSNum.ge, JSNum.lt, max_def, min_def]
  exact ⟨hmem,
    claim5_pageViewCustom_degenerate_noop.2.2.2 .bouncy 5 900 ⟨.fin 0, []⟩
      (.fin 4) hmem⟩

/-- C6 is false as stated because it quantifies over every page extent:
at extent 0, offset 0, count 1, the candidate is NaN, PageView stores it
and notifies with it, so the current index leaves [0, 0]. -/
theorem claim6_counterexample :
    PageView.handleScroll .bouncy 1 0 0 ⟨.fin 0, []⟩ = ⟨.nan, [.nan]⟩
  ∧ (PageView.handleScroll .bouncy 1 0 0 ⟨.fin 0, []⟩).currentPage ≠ .fin 0 := by
  have h : PageView.handleScroll .bouncy 1 0 0 ⟨.fin 0, []⟩ = ⟨.nan, [.nan]⟩ := by
    norm_num [PageView.handleScroll, PageView.scrollNewPage,
      PageView.scrollCandidate, PageView.handlePageChange, JSNum.divF,
      JSNum.round, JSNum.min, JSNum.max, JSNum.strictNe]
  refine ⟨h, ?_⟩
  rw [h]
  simp

/-- C6 amended: the three physics values yield literally the same index
computation on every input, in both components; and for every positive
page extent (and count at least 1) the scroll-driven transition always
lands on an index inside [0, count-1], under every policy. -/
theorem claim6_physics_identical (p q : Physics) (n : ℕ) (a e c : ℚ)
    (evs : List JSNum) (hn : 1 ≤ n) (he : 0 < e) :
    (∀ (m : ℕ) (b f : ℚ), PageView.scrollNewPage p m b f = PageView.scrollNewPage q m b f)
  ∧ (∀ (m : ℕ) (b f : ℚ),
       PageViewCustom.scrollNewPage p m b f = PageViewCustom.scrollNewPage q m b f)
  ∧ (∃ d : ℚ, (PageView.handleScroll p n a e ⟨.fin c, evs⟩).currentPage = .fin d
       ∧ 0 ≤ d ∧ d ≤ (n : ℚ) - 1)
  ∧ (∃ d : ℚ, (PageViewCustom.handleScroll p n a e ⟨.fin c, evs⟩).currentPage = .fin d
       ∧ 0 ≤ d ∧ d ≤ (n : ℚ) - 1) := by
  have he' : e ≠ 0 := ne_of_gt he
  have h0 : (0 : ℚ) ≤ ((specCandidateIndex n a e : ℤ) : ℚ) := by
    exact_mod_cast specCandidateIndex_nonneg n a e
  have h1 : ((specCandidateIndex n a e : ℤ) : ℚ) ≤ (n : ℚ) - 1 := by
    have hle := specCandidateIndex_le n a e hn
    have : ((specCandidateIndex n a e : ℤ) : ℚ) ≤ (((n : ℤ) - 1 : ℤ) : ℚ) := by
      exact_mod_cast hle
    push_cast at this
    linarith
  refine ⟨?_, ?_, ?_, ?_⟩
  · intro m b f
    rw [PageView.scrollNewPage_def, PageView.scrollNewPage_def]
  · intro m b f
    rw [PageViewCustom.scrollNewPage_custom_def, PageViewCustom.scrollNewPage_custom_def]
  · rw [PageView.handleScroll_char p n a he' c evs]
    by_cases hqc : ((specCandidateIndex n a e : ℤ) : ℚ) = c
    · exact ⟨c, by simp [hqc], hqc ▸ h0, hqc ▸ h1⟩
    · exact ⟨((specCandidateIndex n a e : ℤ) : ℚ), by simp [hqc], h0, h1⟩
  · rw [PageViewCustom.handleScroll_custom_char p n a he' hn c evs]
    by_cases hqc : ((specCandidateIndex n a e : ℤ) : ℚ) = c
    · exact ⟨c, by simp [hqc], hqc ▸ h0, hqc ▸ h1⟩
    · exact ⟨((specCandidateIndex n a e : ℤ) : ℚ), by simp [hqc], h0, h1⟩

/-- Witness for the amended C6: count 3, offset 1000, extent 300, current
index 1 — the clamped index stays inside [0, 2] under clamped physics,
and the computation agrees with the bouncy one. -/
theorem claim6_physics_identical_witness :
    ((1 : ℕ) ≤ 3 ∧ (0 : ℚ) < 300)
  ∧ (∀ (m : ℕ) (b f : ℚ),
       PageView.scrollNewPage .clamped m b f = PageView.scrollNewPage .bouncy m b f)
  ∧ (∃ d : ℚ,
       (PageView.handleScroll .clamped 3 1000 300 ⟨.fin 1, []⟩).currentPage = .fin d
       ∧ 0 ≤ d ∧ d ≤ (3 : ℚ) - 1) := by
  have h := claim6_physics_identical .clamped .bouncy 3 1000 300 1 []
    (by norm_num) (by norm_num)
  exact ⟨⟨by norm_num, by norm_num⟩, h.1, by
    obtain ⟨-, -, h3, -⟩ := h
    push_cast at h3 ⊢
    exact h3⟩

/-- C7 is false as stated: scrollToBottom passes the raw content size as
its target, not the maximum scrollable extent.  For a surface with
content 100x80 in a 40x50 viewport the spec target is (60, 30) but
GridView targets (100, 0). -/
theorem claim7_counterexample :
    GridView.scrollToBottomTarget ⟨0, 0, 100, 80, 40, 50⟩ = ⟨100, 0⟩
  ∧ specMaxExtentOffset ⟨0, 0, 100, 80, 40, 50⟩ = ⟨60, 30⟩
  ∧ GridView.scrollToBottomTarget ⟨0, 0, 100, 80, 40, 50⟩
      ≠ specMaxExtentOffset ⟨0, 0, 100, 80, 40, 50⟩ := by
  refine ⟨rfl, ?_, ?_⟩
  · norm_num [specMaxExtentOffset, Surface.maxTop, Surface.maxLeft, max_def]
  · norm_num [GridView.scrollToBottomTarget, specMaxExtentOffset,
      Surface.maxTop, Surface.maxLeft, max_def, ScrollOffset.mk.injEq]

/-- C7 amended: scrollToTop targets the zero offset (GridView and
NestedScrollView on both axes, the ListView variant only assigns the
vertical offset); scrollToBottom passes the raw content height, which the
surface clamps, so the resulting offset is exactly the maximum scrollable
extent on the vertical axis (and 0 horizontally where scrollTo is used);
at zero scrollable extent scrollToBottom leaves an at-rest surface
unchanged and never throws. -/
theorem claim7_scroll_end_operations (s : Surface)
    (hh : 0 ≤ s.scrollHeight) (hc : 0 ≤ s.clientHeight) :
    GridView.scrollToTop (some s) = some { s with scrollTop := 0, scrollLeft := 0 }
  ∧ NestedScrollView.scrollToTop (some s)
      = some { s with scrollTop := 0, scrollLeft := 0 }
  ∧ ListView.scrollToTop (some s) = some { s with scrollTop := 0 }
  ∧ GridView.scrollToBottom (some s)
      = some { s with scrollTop := s.maxTop, scrollLeft := 0 }
  ∧ NestedScrollView.scrollToBottom (some s)
      = some { s with scrollTop := s.maxTop, scrollLeft := 0 }
  ∧ ListView.scrollToBottom (some s) = some { s with scrollTop := s.maxTop }
  ∧ (s.maxTop = 0 → s.scrollTop = 0 → s.scrollLeft = 0 →
       GridView.scrollToBottom (some s) = some s
       ∧ ListView.scrollToBottom (some s) = some s) := by
  have htop := Surface.maxTop_nonneg s
  have hleft := Surface.maxLeft_nonneg s
  have hbot := Surface.maxTop_le_scrollHeight s hh hc
  have h1 : GridView.scrollToTop (some s)
      = some { s with scrollTop := 0, scrollLeft := 0 } := by
    simp [GridView.scrollToTop, Surface.domScrollTo, clamp_zero htop,
      clamp_zero hleft]
  have h4 : GridView.scrollToBottom (some s)
      = some { s with scrollTop := s.maxTop, scrollLeft := 0 } := by
    simp [GridView.scrollToBottom, Surface.domScrollTo, clamp_top htop hbot,
      clamp_zero hleft]
  have h6 : ListView.scrollToBottom (some s)
      = some { s with scrollTop := s.maxTop } := by
    simp [ListView.scrollToBottom, Surface.setScrollTop, clamp_top htop hbot]
  refine ⟨h1, ?_, ?_, h4, ?_, h6, ?_⟩
  · simp [NestedScrollView.scrollToTop, Surface.domScrollTo, clamp_zero htop,
      clamp_zero hleft]
  · simp [ListView.scrollToTop, Surface.setScrollTop, clamp_zero htop]
  · simp [NestedScrollView.scrollToBottom, Surface.domScrollTo,
      clamp_top htop hbot, clamp_zero hleft]
  · intro hm ht hl
    constructor
    · rw [h4, hm]
      cases s
      simp_all
    · rw [h6, hm]
      cases s
      simp_all

/-- Witness for the amended C7 on a concrete mounted surface. -/
theorem claim7_scroll_end_operations_witness :
    ((0 : ℚ) ≤ 100 ∧ (0 : ℚ) ≤ 40)
  ∧ GridView.scrollToTop (some ⟨7, 3, 100, 80, 40, 50⟩)
      = some { (⟨7, 3, 100, 80, 40, 50⟩ : Surface) with
                 scrollTop := 0, scrollLeft := 0 }
  ∧ GridView.scrollToBottom (some ⟨7, 3, 100, 80, 40, 50⟩)
      = some { (⟨7, 3, 100, 80, 40, 50⟩ : Surface) with
                 scrollTop := (⟨7, 3, 100, 80, 40, 50⟩ : Surface).maxTop,
                 scrollLeft := 0 } := by
  have h := claim7_scroll_end_operations ⟨7, 3, 100, 80, 40, 50⟩
    (by norm_num) (by norm_num)
  exact ⟨⟨by norm_num, by norm_num⟩, h.1, h.2.2.2.1⟩

/-- C8: every ScrollController mutator of every modeled component is a
silent no-op when the surface ref is null (before mount / after
unmount): it returns, throws nothing, and changes nothing. -/
theorem claim8_unmounted_mutators_noop (x y : ℚ) :
    GridView.scrollToTop none = none ∧ GridView.scrollToBottom none = none
  ∧ GridView.scrollBy x y none = none ∧ GridView.scrollTo x y none = none
  ∧ ListView.scrollToTop none = none ∧ ListView.scrollToBottom none = none
  ∧ ListView.scrollBy x y none = none ∧ ListView.scrollTo x y none = none
  ∧ NestedScrollView.scrollToTop none = none
  ∧ NestedScrollView.scrollToBottom none = none
  ∧ NestedScrollView.scrollBy x y none = none
  ∧ NestedScrollView.scrollTo x y none = none :=
  ⟨rfl, rfl, rfl, rfl, rfl, rfl, rfl, rfl, rfl, rfl, rfl, rfl⟩

/-- Composition of the DOM scrollBy when the intermediate offset needs no
clamping: two relative scrolls equal one scroll by the summed deltas. -/
theorem Surface.domScrollBy_comp (s : Surface) (dt1 dl1 dt2 dl2 : ℚ)
    (ht0 : 0 ≤ s.scrollTop + dt1) (ht1 : s.scrollTop + dt1 ≤ s.maxTop)
    (hl0 : 0 ≤ s.scrollLeft + dl1) (hl1 : s.scrollLeft + dl1 ≤ s.maxLeft) :
    (s.domScrollBy dt1 dl1).domScrollBy dt2 dl2
      = s.domScrollBy (dt1 + dt2) (dl1 + dl2) := by
  cases s with
  | mk t l sh sw ch cw =>
    simp only [Surface.domScrollBy, Surface.domScrollTo, Surface.maxTop,
      Surface.maxLeft] at *
    rw [clamp_id ht0 ht1, clamp_id hl0 hl1, add_assoc, add_assoc]

/-- C9: as long as the first delta leaves the offset inside the
scrollable range (the only case not covered by the claim's own clamping
proviso), scrollBy composed twice equals one scrollBy with the summed
deltas, in each component that exposes scrollBy. -/
theorem claim9_scrollBy_composes (s : Surface) (dx1 dy1 dx2 dy2 : ℚ)
    (ht0 : 0 ≤ s.scrollTop + dy1) (ht1 : s.scrollTop + dy1 ≤ s.maxTop)
    (hl0 : 0 ≤ s.scrollLeft + dx1) (hl1 : s.scrollLeft + dx1 ≤ s.maxLeft) :
    GridView.scrollBy dx2 dy2 (GridView.scrollBy dx1 dy1 (some s))
        = GridView.scrollBy (dx1 + dx2) (dy1 + dy2) (some s)
  ∧ ListView.scrollBy dx2 dy2 (ListView.scrollBy dx1 dy1 (some s))
        = ListView.scrollBy (dx1 + dx2) (dy1 + dy2) (some s)
  ∧ NestedScrollView.scrollBy dx2 dy2 (NestedScrollView.scrollBy dx1 dy1 (some s))
        = NestedScrollView.scrollBy (dx1 + dx2) (dy1 + dy2) (some s) := by
  have key := Surface.domScrollBy_comp s dy1 dx1 dy2 dx2 ht0 ht1 hl0 hl1
  refine ⟨?_, ?_, ?_⟩
  · simp [GridView.scrollBy, key]
  · simp [ListView.scrollBy, key]
  · simp [NestedScrollView.scrollBy, key]

/-- Witness for C9 on a concrete surface: start at (5, 5) in a 30x30
content with 10x10 viewport (extent 20 on each axis); the first delta
(3 down, 2 right) stays in range, the second is arbitrary. -/
theorem claim9_scrollBy_composes_witness :
    ((0 : ℚ) ≤ 5 + 3 ∧ (5 : ℚ) + 3 ≤ (⟨5, 5, 30, 30, 10, 10⟩ : Surface).maxTop
      ∧ (0 : ℚ) ≤ 5 + 2 ∧ (5 : ℚ) + 2 ≤ (⟨5, 5, 30, 30, 10, 10⟩ : Surface).maxLeft)
  ∧ GridView.scrollBy (-50) 100 (GridView.scrollBy 2 3 (some ⟨5, 5, 30, 30, 10, 10⟩))
      = GridView.scrollBy (2 + -50) (3 + 100) (some ⟨5, 5, 30, 30, 10, 10⟩) := by
  have hmt : (⟨5, 5, 30, 30, 10, 10⟩ : Surface).maxTop = 20 := by
    norm_num [Surface.maxTop, max_def]
  have hml : (⟨5, 5, 30, 30, 10, 10⟩ : Surface).maxLeft = 20 := by
    norm_num [Surface.maxLeft, max_def]
  have h := claim9_scrollBy_composes ⟨5, 5, 30, 30, 10, 10⟩ 2 3 (-50) 100
    (by norm_num) (by rw [hmt]; norm_num) (by norm_num) (by rw [hml]; norm_num)
  exact ⟨⟨by norm_num, by rw [hmt]; norm_num, by norm_num, by rw [hml]; norm_num⟩,
    h.1⟩

/-- C10: in PageViewCustom, along every sequence of nextPage,
previousPage and scroll-event operations from the initial state, every
argument ever passed to onPageChanged is a finite integer in
[0, count-1], because all notifications flow through handlePageChange,
which rejects out-of-range (and non-finite) targets. -/
theorem claim10_notifications_in_range (p : Physics) (n : ℕ) (ops : List PVOp)
    (x : JSNum) (hx : x ∈ (PageViewCustom.runOps p n ops PVState.init).events) :
    eventInRange n x :=
  (PageViewCustom.runOps_ok p n ops PVState.init (PVState.init_ok n)).2 x hx

/-- Witness for C10: with count 2, the single operation nextPage emits
onPageChanged(1), which is in [0, 1]. -/
theorem claim10_notifications_in_range_witness :
    ((.fin 1 : JSNum) ∈ (PageViewCustom.runOps .bouncy 2 [.next] PVState.init).events)
  ∧ eventInRange 2 (.fin 1) := by
  have hmem : (.fin 1 : JSNum)
      ∈ (PageViewCustom.runOps .bouncy 2 [.next] PVState.init).events := by
    norm_num [PageViewCustom.runOps, PageViewCustom.applyOp,
      PageViewCustom.nextPage, PageViewCustom.handlePageChange, PVState.init,
      JSNum.add_fin, JSNum.strictNe, JSNum.ge, JSNum.lt]
  exact ⟨hmem, claim10_notifications_in_range .bouncy 2 [.next] (.fin 1) hmem⟩
